import Mathlib

/-!
Verification of the incremental-sync core of `fitbit-api-exporter`
(`src/api_poller.py` and `src/fitbit_export_loader.py`), shallowly embedded
in Lean.  Dates and timestamps are modelled at day granularity as `Int`
(days since an arbitrary epoch); `timedelta(days=n)` becomes the integer
`n`, and `int((a - b) / timedelta(days=1))` becomes `a - b`.  Numeric
payload values are modelled as `Rat`, Python dicts with a fixed key set as
structures with `Option` fields (`none` = key absent), and Python
exceptions as `Option`/`Except` results.
-/

/-- `REQUEST_INTERVAL = timedelta(days=27)` from `api_poller.py`. -/
def REQUEST_INTERVAL : Int := 27

/-- `append_between_day_series(in_list, cur_marker, interval_max)` from
`api_poller.py`: walks forward from `cur_marker` in chunks of
`REQUEST_INTERVAL`, clipping the final chunk to `interval_max`.  The Python
function mutates `in_list`; we return the list of appended pairs. -/
def append_between_day_series (cur_marker interval_max : Int) : List (Int × Int) :=
  if cur_marker ≤ interval_max then
    if cur_marker + REQUEST_INTERVAL > interval_max then
      [(cur_marker, interval_max)]
    else
      (cur_marker, cur_marker + REQUEST_INTERVAL) ::
        append_between_day_series (cur_marker + REQUEST_INTERVAL + 1) interval_max
  else []
termination_by (interval_max + 1 - cur_marker).toNat
decreasing_by
  simp only [REQUEST_INTERVAL] at *
  omega

/-- `get_first_timestamp_for_measurement` from `api_poller.py`: the influx
query result is modelled as `Option Int` (`none` = empty result set); on an
empty result the function returns `min_ts`. -/
def get_first_timestamp_for_measurement (res : Option Int) (min_ts : Int) : Int :=
  match res with
  | some ts => ts
  | Option.none => min_ts

/-- `get_last_timestamp_for_measurement` from `api_poller.py`, same shape as
the `first` variant. -/
def get_last_timestamp_for_measurement (res : Option Int) (min_ts : Int) : Int :=
  match res with
  | some ts => ts
  | Option.none => min_ts

/-- The interval-scheduling fragment of `run_api_poller` (api_poller.py
lines 465-480): computes `profile_to_first` and `last_to_current`, appends
the two gap interval lists, and falls back to the keep-alive interval
`(cur_day, cur_day)` when both gaps are at most one day wide. -/
def schedule_intervals (member_since_dt first_ts last_ts cur_day : Int) : List (Int × Int) :=
  let profile_to_first := first_ts - member_since_dt
  let last_to_current := cur_day - last_ts
  let intervals1 :=
    if profile_to_first > 1 then append_between_day_series member_since_dt first_ts else []
  let intervals2 :=
    if last_to_current > 1 then append_between_day_series last_ts cur_day else []
  let intervals := intervals1 ++ intervals2
  if intervals.isEmpty then [(cur_day, cur_day)] else intervals

/-- A Python value as it flows through the exporter: a float/int (both
modelled as `Rat`), a string, a boolean, or `None`. -/
inductive PVal where
  | num : Rat → PVal
  | str : String → PVal
  | bool : Bool → PVal
  | none : PVal
deriving DecidableEq

/-- Python truthiness (`bool(v)`) on the values of `PVal`. -/
def pyFalsy : PVal → Bool
  | PVal.num q => q == 0
  | PVal.str s => s.isEmpty
  | PVal.bool b => !b
  | PVal.none => true

def digitsToNat (cs : List Char) : Nat :=
  cs.foldl (fun a c => a * 10 + (c.toNat - 48)) 0

def parseDigits (cs : List Char) : Option Nat :=
  if !cs.isEmpty && cs.all Char.isDigit then some (digitsToNat cs) else Option.none

/-- Python `int(s)` on an optionally signed decimal string (the only forms
this repository's environment variables take); any other string fails. -/
def pyIntOfString (s : String) : Option Int :=
  match s.data with
  | '+' :: rest => (parseDigits rest).map (fun n => (n : Int))
  | '-' :: rest => (parseDigits rest).map (fun n => -(n : Int))
  | cs => (parseDigits cs).map (fun n => (n : Int))

def parseDecimalCore (cs : List Char) : Option Rat :=
  let intPart := cs.takeWhile (fun c => c != '.')
  let rest := cs.dropWhile (fun c => c != '.')
  match rest with
  | [] => (parseDigits intPart).map (fun n => (n : Rat))
  | '.' :: frac =>
    if !(intPart.isEmpty && frac.isEmpty) && intPart.all Char.isDigit
        && frac.all Char.isDigit then
      some ((digitsToNat intPart : Rat) + (digitsToNat frac : Rat) / ((10 : Rat) ^ frac.length))
    else Option.none
  | _ => Option.none

/-- Python `float(s)` on an optionally signed decimal literal; exotic forms
(exponents, `inf`, `nan`) are not exercised by any claim. -/
def pyFloatOfString (s : String) : Option Rat :=
  match s.data with
  | '+' :: rest => parseDecimalCore rest
  | '-' :: rest => (parseDecimalCore rest).map (fun q => -q)
  | cs => parseDecimalCore cs

/-- Python `float(v)` as used in `create_api_datapoint_meas_series`:
`some q` when the coercion succeeds, `none` when it raises. -/
def pyFloatCoerce (v : PVal) : Option Rat :=
  match v with
  | PVal.num q => some q
  | PVal.bool b => some (if b then 1 else 0)
  | PVal.str s => pyFloatOfString s
  | PVal.none => Option.none

/-- `try_cast_to_int(in_var)` (identical in both source files): `int()` on
a string yields the parsed integer or, when `int` raises, the string
unchanged; non-string inputs reaching it in this codebase (`None`) make
`int` raise, so they also pass through unchanged. -/
def try_cast_to_int (in_var : PVal) : PVal :=
  match in_var with
  | PVal.str s =>
    match pyIntOfString s with
    | some n => PVal.num (n : Rat)
    | Option.none => PVal.str s
  | v => v

/-- `try_getenv(var_name, default_var=None)` (identical in both source
files).  `env_val` is `os.environ.get(var_name)`; the raised `ValueError`
is modelled as `Except.error` carrying the formatted message. -/
def try_getenv (var_name : String) (env_val : Option String) (default_var : PVal) :
    Except String PVal :=
  let my_var : PVal :=
    match env_val with
    | some s => PVal.str s
    | Option.none => PVal.none
  let my_var2 := try_cast_to_int my_var
  if pyFalsy my_var2 then
    if pyFalsy default_var then
      Except.error ("Invalid or missing value provided for: " ++ var_name)
    else Except.ok default_var
  else Except.ok my_var2

/-- An InfluxDB point dict as built by `create_api_datapoint_meas_series`
(api_poller.py) and `create_datapoint` (fitbit_export_loader.py):
`{measurement, tags, time, fields}`. -/
structure InfluxPoint where
  measurement : String
  tags : List (String × String)
  time : String
  fields : List (String × PVal)
deriving DecidableEq

/-- `create_api_datapoint_meas_series(measurement, series, value, in_dt)`
from `api_poller.py`: falsy values are replaced by `0.0`, then coerced to
float, with coercion failure leaving the value unchanged. -/
def create_api_datapoint_meas_series (measurement series : String) (value : PVal)
    (in_dt : String) : InfluxPoint :=
  let v1 := if pyFalsy value then PVal.num 0 else value
  let v2 :=
    match pyFloatCoerce v1 with
    | some q => PVal.num q
    | Option.none => v1
  { measurement := measurement, tags := [("imported_from", "API")],
    time := in_dt, fields := [(series, v2)] }

/-- The loop body of `dedup_meas` from `fitbit_export_loader.py`:
`tracking` is the set of `record['time']` values already seen. -/
def dedup_go (tracking : List String) : List InfluxPoint → List InfluxPoint
  | [] => []
  | r :: rest =>
    if r.time ∈ tracking then dedup_go tracking rest
    else r :: dedup_go (r.time :: tracking) rest

/-- `dedup_meas(list_of_meas)` from `fitbit_export_loader.py`: keeps a
record only when its `time` has not been seen before. -/
def dedup_meas (list_of_meas : List InfluxPoint) : List InfluxPoint :=
  dedup_go [] list_of_meas

/-- `CHUNK_SIZE = 5000` from `fitbit_export_loader.py`. -/
def CHUNK_SIZE : Nat := 5000

/-- The write loop at the end of `write_data_for`: repeatedly writes
`final_list[:CHUNK_SIZE]` and drops it, until the list is empty.  The
result is the list of batches passed to `write_points`. -/
def chunked_writes (final_list : List InfluxPoint) : List (List InfluxPoint) :=
  if final_list.isEmpty then []
  else final_list.take CHUNK_SIZE :: chunked_writes (final_list.drop CHUNK_SIZE)
termination_by final_list.length
decreasing_by
  rename_i h
  simp only [List.isEmpty_iff] at h
  have hpos : 0 < final_list.length := List.length_pos.mpr h
  simp only [List.length_drop, CHUNK_SIZE]
  omega

/-- The skip-or-write tail of `write_data_for` (fitbit_export_loader.py
lines 139-154): when the measurement already exists and the stored count
of the first field equals `len(final_list)`, return without writing;
otherwise write the whole list in `CHUNK_SIZE` batches. -/
def write_data_tail (meas_exists : Bool) (key_count : Nat)
    (final_list : List InfluxPoint) : List (List InfluxPoint) :=
  if meas_exists && key_count == final_list.length then []
  else chunked_writes final_list

/-- First of two loader points sharing `(measurement, series, timestamp)`
identity but with different values (used as concrete test data). -/
def heart_rate_point_first : InfluxPoint :=
  { measurement := "heart_rate", tags := [("imported_from", "data_dump")],
    time := "2020-01-01T00:00:00", fields := [("bpm", PVal.str "60")] }

/-- Second of the two loader points: same identity, different value. -/
def heart_rate_point_second : InfluxPoint :=
  { measurement := "heart_rate", tags := [("imported_from", "data_dump")],
    time := "2020-01-01T00:00:00", fields := [("bpm", PVal.str "70")] }

/-- An intermediate transform output dict `{dateTime, meas, series, value}`
as produced by the `transform_*_datapoint` functions in `api_poller.py`. -/
structure DP where
  dateTime : String
  meas : String
  series : String
  value : PVal
deriving DecidableEq

/-- `d.get(key)` for a numeric key with default `None`. -/
def optNum : Option Rat → PVal
  | some q => PVal.num q
  | Option.none => PVal.none

/-- Python truthiness of `d.get(key)` when the value is a list (or a dict
modelled as an association list): absent or empty is falsy. -/
def optListTruthy {α : Type} : Option (List α) → Bool
  | some l => !l.isEmpty
  | Option.none => false

/-- Python `s.lower()` (ASCII, which covers every name in the payloads). -/
def py_lower (s : String) : String := String.mk (s.data.map Char.toLower)

/-- Python `s.replace(' ', '_')`. -/
def py_replace_space (s : String) : String :=
  String.mk (s.data.map (fun c => if c = ' ' then '_' else c))

/-- One value of the `levels.summary` mapping of a sleep record:
`{count, minutes, thirtyDayAvgMinutes}`, each key optional. -/
structure LevelSummary where
  count : Option Rat
  minutes : Option Rat
  thirtyDayAvgMinutes : Option Rat
deriving DecidableEq

/-- One entry of `levels.data` / `levels.shortData` of a sleep record:
`{datetime, level, seconds}` (all read with `[...]`, hence required). -/
structure SleepDataEntry where
  datetime : String
  level : String
  seconds : Rat
deriving DecidableEq

/-- The `levels` sub-dict of a sleep record; each key optional (reading an
absent key with `[...]` raises). -/
structure SleepLevels where
  summary : Option (List (String × LevelSummary))
  data : Option (List SleepDataEntry)
  shortData : Option (List SleepDataEntry)
deriving DecidableEq

/-- A raw sleep record as read by `transform_sleep_datapoint`.  The
`summary`, `data` and `shortData` fields are TOP-LEVEL keys of the record —
they are what `datapoint.get('summary')` etc. inspect — and are distinct
from the synonymous keys inside `levels`, which is what the code then
actually indexes. -/
structure SleepRecord where
  startTime : Option String
  duration : Option Rat
  efficiency : Option Rat
  isMainSleep : Option Bool
  timeInBed : Option Rat
  minutesAfterWakeup : Option Rat
  minutesAsleep : Option Rat
  minutesAwake : Option Rat
  minutesToFallAsleep : Option Rat
  levels : Option SleepLevels
  summary : Option (List (String × LevelSummary))
  data : Option (List SleepDataEntry)
  shortData : Option (List SleepDataEntry)
deriving DecidableEq

/-- Truthiness of `datapoint.get('levels')`: present with at least one
key. -/
def levelsTruthy : Option SleepLevels → Bool
  | some lv => lv.summary.isSome || lv.data.isSome || lv.shortData.isSome
  | Option.none => false

/-- `dict_level.get(one_val)` for the three summary keys. -/
def summary_field (dict_level : LevelSummary) : String → Option Rat
  | "count" => dict_level.count
  | "minutes" => dict_level.minutes
  | "thirtyDayAvgMinutes" => dict_level.thirtyDayAvgMinutes
  | _ => Option.none

/-- The inner loop over `['count', 'minutes', 'thirtyDayAvgMinutes']` for
one `(one_level, dict_level)` item of `levels['summary']`. -/
def sleep_summary_points (d_t : String) (entry : String × LevelSummary) : List DP :=
  ["count", "minutes", "thirtyDayAvgMinutes"].map (fun one_val =>
    { dateTime := d_t, meas := "sleep_levels",
      series := py_lower entry.1 ++ "_" ++ one_val,
      value := optNum (summary_field entry.2 one_val) })

/-- The inner loop over `['level', 'seconds']` for one entry of
`levels['data']` / `levels['shortData']`: the loop variable is unused in
the body, so the same point is appended twice per entry, exactly as in the
source. -/
def sleep_level_data_points (meas : String) (data_entry : SleepDataEntry) : List DP :=
  ["level", "seconds"].map (fun _ =>
    { dateTime := data_entry.datetime, meas := meas,
      series := "level_" ++ data_entry.level, value := PVal.num data_entry.seconds })

/-- `transform_sleep_datapoint(datapoint)` from `api_poller.py`: the eight
base points, then — guarded by the TOP-LEVEL keys `summary`/`data`/
`shortData` while reading `datapoint['levels'][...]` — the level points.
A raised `KeyError` is modelled as `none`. -/
def transform_sleep_datapoint (dp : SleepRecord) : Option (List DP) := do
  let d_t ← dp.startTime
  let base : List DP := [
    { dateTime := d_t, meas := "sleep", series := "duration",
      value := PVal.num (dp.duration.getD 0 / 1000) },
    { dateTime := d_t, meas := "sleep", series := "efficiency", value := optNum dp.efficiency },
    { dateTime := d_t, meas := "sleep", series := "isMainSleep",
      value := PVal.bool (dp.isMainSleep.getD false) },
    { dateTime := d_t, meas := "sleep", series := "timeInBed", value := optNum dp.timeInBed },
    { dateTime := d_t, meas := "sleep", series := "minutesAfterWakeup",
      value := optNum dp.minutesAfterWakeup },
    { dateTime := d_t, meas := "sleep", series := "minutesAsleep",
      value := optNum dp.minutesAsleep },
    { dateTime := d_t, meas := "sleep", series := "minutesAwake",
      value := optNum dp.minutesAwake },
    { dateTime := d_t, meas := "sleep", series := "minutesToFallAsleep",
      value := optNum dp.minutesToFallAsleep } ]
  if levelsTruthy dp.levels then
    let lv ← dp.levels
    let sumPts ←
      if optListTruthy dp.summary then
        (lv.summary).map (fun entries => entries.flatMap (sleep_summary_points d_t))
      else some []
    let dataPts ←
      if optListTruthy dp.data then
        (lv.data).map (fun entries => entries.flatMap (sleep_level_data_points "sleep_data"))
      else some []
    let shortPts ←
      if optListTruthy dp.shortData then
        (lv.shortData).map (fun entries =>
          entries.flatMap (sleep_level_data_points "sleep_shortData"))
      else some []
    pure (base ++ sumPts ++ dataPts ++ shortPts)
  else
    pure base

/-- One zone dict of `value['heartRateZones']`: `name` is read with
`[...]` (required); the four numeric keys use `.get(key, 0.0)`. -/
structure HeartZone where
  name : String
  caloriesOut : Option Rat
  max : Option Rat
  min : Option Rat
  minutes : Option Rat
deriving DecidableEq

/-- The `value` dict of a heart-rate raw item. -/
structure HeartValue where
  restingHeartRate : Option Rat
  heartRateZones : Option (List HeartZone)
deriving DecidableEq

/-- A heart-rate raw item `{dateTime, value}`, both read with `[...]`. -/
structure HeartDatapoint where
  dateTime : Option String
  value : Option HeartValue
deriving DecidableEq

/-- `zone.get(one_val, 0.0)` for the four zone keys. -/
def zone_field (zone : HeartZone) : String → Option Rat
  | "caloriesOut" => zone.caloriesOut
  | "max" => zone.max
  | "min" => zone.min
  | "minutes" => zone.minutes
  | _ => Option.none

/-- The inner loop over `['caloriesOut', 'max', 'min', 'minutes']` for one
zone: series name `'_'.join(['hrz', name.replace(' ', '_').lower(),
one_val])`. -/
def heart_zone_points (d_t : String) (zone : HeartZone) : List DP :=
  ["caloriesOut", "max", "min", "minutes"].map (fun one_val =>
    { dateTime := d_t, meas := "activities",
      series := "hrz_" ++ py_lower (py_replace_space zone.name) ++ "_" ++ one_val,
      value := PVal.num ((zone_field zone one_val).getD 0) })

/-- `transform_activities_heart_datapoint(datapoint)` from
`api_poller.py`. -/
def transform_activities_heart_datapoint (dp : HeartDatapoint) : Option (List DP) := do
  let d_t ← dp.dateTime
  let dp_value ← dp.value
  let base : List DP := [
    { dateTime := d_t, meas := "activities", series := "restingHeartRate",
      value := PVal.num (dp_value.restingHeartRate.getD 0) } ]
  if optListTruthy dp_value.heartRateZones then
    pure (base ++ (dp_value.heartRateZones.getD []).flatMap (heart_zone_points d_t))
  else
    pure base

/-- One attempt outcome of `api_client.time_series(...)` inside
`fitbit_fetch_datapoints`: a successful payload (abstracted as a `Nat`
id), or one of the caught exception classes, or any other exception. -/
inductive FetchOutcome where
  | ok : Nat → FetchOutcome
  | timeout : FetchOutcome
  | httpServerError : FetchOutcome
  | httpTooManyRequests : FetchOutcome
  | otherException : FetchOutcome
deriving DecidableEq

/-- The sleep performed by the retry loop before the next attempt, per
exception class; `none` for outcomes that do not continue the loop. -/
def retry_sleep_seconds : FetchOutcome → Option Nat
  | FetchOutcome.timeout => some 15
  | FetchOutcome.httpServerError => some 15
  | FetchOutcome.httpTooManyRequests => some 3610
  | _ => Option.none

/-- What the `while True` retry loop of `fitbit_fetch_datapoints` does on a
scripted sequence of attempt outcomes: return a payload after some sleeps,
re-raise after some sleeps, or (if the script runs out) still be
looping. -/
inductive FetchLoopResult where
  | success : List Nat → Nat → FetchLoopResult
  | raised : List Nat → FetchLoopResult
  | stillRunning : FetchLoopResult
deriving DecidableEq

/-- Record one `time.sleep(n)` in front of a loop result. -/
def addSleep (n : Nat) : FetchLoopResult → FetchLoopResult
  | FetchLoopResult.success sleeps p => FetchLoopResult.success (n :: sleeps) p
  | FetchLoopResult.raised sleeps => FetchLoopResult.raised (n :: sleeps)
  | FetchLoopResult.stillRunning => FetchLoopResult.stillRunning

/-- The `while True` retry loop of `fitbit_fetch_datapoints`
(api_poller.py lines 321-338), driven by a scripted list of attempt
outcomes: break on success, sleep 15 then retry on `Timeout` and
`HTTPServerError`, sleep 3610 then retry on `HTTPTooManyRequests`, and
re-raise immediately on any other exception. -/
def fitbit_fetch_retry_loop : List FetchOutcome → FetchLoopResult
  | [] => FetchLoopResult.stillRunning
  | FetchOutcome.ok p :: _ => FetchLoopResult.success [] p
  | FetchOutcome.timeout :: rest => addSleep 15 (fitbit_fetch_retry_loop rest)
  | FetchOutcome.httpServerError :: rest => addSleep 15 (fitbit_fetch_retry_loop rest)
  | FetchOutcome.httpTooManyRequests :: rest => addSleep 3610 (fitbit_fetch_retry_loop rest)
  | FetchOutcome.otherException :: _ => FetchLoopResult.raised []

/-- A realistic sleep record whose `levels` structure carries `summary`,
`data` and `shortData` (as the sleep API delivers them), with no synonymous
top-level keys. -/
def c3_sleep_record : SleepRecord :=
  { startTime := some "2020-01-01T23:00:00.000", duration := some 28800000,
    efficiency := some 90, isMainSleep := some true, timeInBed := some 480,
    minutesAfterWakeup := some 0, minutesAsleep := some 450, minutesAwake := some 30,
    minutesToFallAsleep := some 5,
    levels := some
      { summary := some [("deep", ⟨some 4, some 90, some 85⟩)],
        data := some [⟨"2020-01-01T23:00:00.000", "deep", 300⟩],
        shortData := some [⟨"2020-01-02T01:00:00.000", "wake", 60⟩] },
    summary := Option.none, data := Option.none, shortData := Option.none }

/-- The sleep record of the spec's end-to-end scenario: `duration`
28800000 ms, `efficiency` 90, no `levels` key. -/
def c5_sleep_record : SleepRecord :=
  { startTime := some "2020-01-01T23:00:00.000", duration := some 28800000,
    efficiency := some 90, isMainSleep := some true, timeInBed := some 480,
    minutesAfterWakeup := some 0, minutesAsleep := some 450, minutesAwake := some 30,
    minutesToFallAsleep := some 5, levels := Option.none, summary := Option.none,
    data := Option.none, shortData := Option.none }

/-- A concrete heart-rate zone ("Out of Range"). -/
def c7_zone1 : HeartZone :=
  { name := "Out of Range", caloriesOut := some 100, max := some 90,
    min := some 30, minutes := some 1000 }

/-- A concrete heart-rate zone ("Fat Burn"). -/
def c7_zone2 : HeartZone :=
  { name := "Fat Burn", caloriesOut := some 200, max := some 120,
    min := some 90, minutes := some 300 }

/-- A concrete heart-rate raw item with two zones. -/
def c7_heart_datapoint : HeartDatapoint :=
  { dateTime := some "2020-01-01",
    value := some ⟨some 60, some [c7_zone1, c7_zone2]⟩ }

-- ======================================================================
-- Theorems
-- ======================================================================

theorem append_between_day_series_bounds (s e : Int) :
    ∀ p ∈ append_between_day_series s e, s ≤ p.1 ∧ p.1 ≤ p.2 ∧ p.2 ≤ e := by
  induction s, e using append_between_day_series.induct with
  | case1 s e hle hgt =>
    rw [append_between_day_series, if_pos hle, if_pos hgt]
    intro p hp
    simp only [List.mem_singleton] at hp
    subst hp
    exact ⟨le_refl s, hle, le_refl e⟩
  | case2 s e hle hgt ih =>
    rw [append_between_day_series, if_pos hle, if_neg hgt]
    simp only [REQUEST_INTERVAL] at hgt ih ⊢
    intro p hp
    rcases List.mem_cons.mp hp with h | h
    · subst h
      exact ⟨le_refl s, (by omega : s ≤ s + 27), (by omega : s + 27 ≤ e)⟩
    · have h3 := ih p h
      exact ⟨le_trans (by omega : s ≤ s + 27 + 1) h3.1, h3.2.1, h3.2.2⟩
  | case3 s e hnle =>
    rw [append_between_day_series, if_neg hnle]
    intro p hp
    exact absurd hp (List.not_mem_nil p)

theorem append_between_day_series_pairwise (s e : Int) :
    List.Pairwise (fun p q : Int × Int => p.2 < q.1) (append_between_day_series s e) := by
  induction s, e using append_between_day_series.induct with
  | case1 s e hle hgt =>
    rw [append_between_day_series, if_pos hle, if_pos hgt]
    exact List.pairwise_singleton _ _
  | case2 s e hle hgt ih =>
    rw [append_between_day_series, if_pos hle, if_neg hgt]
    refine List.Pairwise.cons ?_ ih
    intro q hq
    have hb := append_between_day_series_bounds (s + REQUEST_INTERVAL + 1) e q hq
    simp only [REQUEST_INTERVAL] at hb ⊢
    omega
  | case3 s e hnle =>
    rw [append_between_day_series, if_neg hnle]
    exact List.Pairwise.nil

theorem append_between_day_series_cover (s e : Int) :
    ∀ d : Int, s ≤ d → d ≤ e →
      ∃ p ∈ append_between_day_series s e, p.1 ≤ d ∧ d ≤ p.2 := by
  induction s, e using append_between_day_series.induct with
  | case1 s e hle hgt =>
    intro d hsd hde
    rw [append_between_day_series, if_pos hle, if_pos hgt]
    exact ⟨(s, e), List.mem_singleton_self _, hsd, hde⟩
  | case2 s e hle hgt ih =>
    intro d hsd hde
    rw [append_between_day_series, if_pos hle, if_neg hgt]
    simp only [REQUEST_INTERVAL] at hgt ⊢
    by_cases hd : d ≤ s + 27
    · exact ⟨(s, s + 27), List.mem_cons_self _ _, hsd, hd⟩
    · have hd' : s + 27 + 1 ≤ d := by omega
      obtain ⟨p, hp, h1, h2⟩ := ih d (by simp only [REQUEST_INTERVAL]; omega) hde
      refine ⟨p, List.mem_cons_of_mem _ ?_, h1, h2⟩
      simpa only [REQUEST_INTERVAL] using hp
  | case3 s e hnle =>
    intro d hsd hde
    exact absurd (le_trans hsd hde) hnle

theorem append_between_day_series_span (s e : Int) :
    ∀ p ∈ append_between_day_series s e, p.2 - p.1 ≤ REQUEST_INTERVAL := by
  induction s, e using append_between_day_series.induct with
  | case1 s e hle hgt =>
    rw [append_between_day_series, if_pos hle, if_pos hgt]
    intro p hp
    simp only [List.mem_singleton] at hp
    subst hp
    simp only [REQUEST_INTERVAL] at hgt ⊢
    omega
  | case2 s e hle hgt ih =>
    rw [append_between_day_series, if_pos hle, if_neg hgt]
    intro p hp
    rcases List.mem_cons.mp hp with h | h
    · subst h
      simp only [REQUEST_INTERVAL]
      omega
    · exact ih p h
  | case3 s e hnle =>
    rw [append_between_day_series, if_neg hnle]
    intro p hp
    exact absurd hp (List.not_mem_nil p)

theorem append_between_day_series_last (s e : Int) (h : s ≤ e) :
    ∃ p, (append_between_day_series s e).getLast? = some p ∧ p.2 = e := by
  induction s, e using append_between_day_series.induct with
  | case1 s e hle hgt =>
    rw [append_between_day_series, if_pos hle, if_pos hgt]
    exact ⟨(s, e), rfl, rfl⟩
  | case2 s e hle hgt ih =>
    rw [append_between_day_series, if_pos hle, if_neg hgt]
    have hle' : s + REQUEST_INTERVAL + 1 ≤ e ∨ s + REQUEST_INTERVAL = e := by
      simp only [REQUEST_INTERVAL] at hgt ⊢
      omega
    rcases hle' with hle' | hle'
    · obtain ⟨p, hp, hpe⟩ := ih hle'
      refine ⟨p, ?_, hpe⟩
      cases hrec : append_between_day_series (s + REQUEST_INTERVAL + 1) e with
      | nil => rw [hrec] at hp; exact absurd hp (by simp)
      | cons q t =>
        rw [hrec] at hp
        rw [List.getLast?_cons_cons]
        exact hp
    · refine ⟨(s, s + REQUEST_INTERVAL), ?_, hle'⟩
      have hrec : append_between_day_series (s + REQUEST_INTERVAL + 1) e = [] := by
        rw [append_between_day_series, if_neg]
        omega
      rw [hrec]
      rfl
  | case3 s e hnle =>
    exact absurd h hnle

theorem append_between_day_series_ne_nil (s e : Int) (h : s ≤ e) :
    append_between_day_series s e ≠ [] := by
  rw [append_between_day_series, if_pos h]
  by_cases hgt : s + REQUEST_INTERVAL > e
  · rw [if_pos hgt]; simp
  · rw [if_neg hgt]; simp

/-- C1: for every gap with start not after end, `append_between_day_series`
emits intervals in chronological order (each interval ends strictly before
the next begins), pairwise non-overlapping, covering every day of the gap
with no skipped day, each spanning at most `REQUEST_INTERVAL = 27` days,
with the final interval ending exactly at the gap end and no interval
overshooting it. -/
theorem append_between_day_series_correct (s e : Int) (h : s ≤ e) :
    List.Pairwise (fun p q : Int × Int => p.2 < q.1) (append_between_day_series s e) ∧
    (∀ d : Int, s ≤ d → d ≤ e →
        ∃ p ∈ append_between_day_series s e, p.1 ≤ d ∧ d ≤ p.2) ∧
    (∀ p ∈ append_between_day_series s e, p.2 - p.1 ≤ REQUEST_INTERVAL) ∧
    (∃ p, (append_between_day_series s e).getLast? = some p ∧ p.2 = e) ∧
    (∀ p ∈ append_between_day_series s e, s ≤ p.1 ∧ p.1 ≤ p.2 ∧ p.2 ≤ e) :=
  ⟨append_between_day_series_pairwise s e,
   append_between_day_series_cover s e,
   append_between_day_series_span s e,
   append_between_day_series_last s e h,
   append_between_day_series_bounds s e⟩

/-- Witness for C1 at the concrete gap `[0, 30]` (which splits into two
chunks, `[0, 27]` and `[28, 30]`). -/
theorem append_between_day_series_correct_witness :
    List.Pairwise (fun p q : Int × Int => p.2 < q.1) (append_between_day_series 0 30) ∧
    (∀ d : Int, 0 ≤ d → d ≤ 30 →
        ∃ p ∈ append_between_day_series 0 30, p.1 ≤ d ∧ d ≤ p.2) ∧
    (∀ p ∈ append_between_day_series 0 30, p.2 - p.1 ≤ REQUEST_INTERVAL) ∧
    (∃ p, (append_between_day_series 0 30).getLast? = some p ∧ p.2 = 30) ∧
    (∀ p ∈ append_between_day_series 0 30, 0 ≤ p.1 ∧ p.1 ≤ p.2 ∧ p.2 ≤ 30) :=
  append_between_day_series_correct 0 30 (by decide)

/-- C8 counterexample: with an empty store (both timestamp queries return
no rows, so `first_ts = last_ts = now`) and `member_since = now - 1` day,
the scheduler emits only the keep-alive interval `[now, now]`; the day
`member_since` itself (day 0, with `now = 1`) lies in no interval, so the
produced intervals do not cover `[member_since, now]` as the claim states
for every empty-store series. -/
theorem schedule_intervals_one_day_gap_counterexample :
    schedule_intervals 0 (get_first_timestamp_for_measurement Option.none 1)
        (get_last_timestamp_for_measurement Option.none 1) 1 = [(1, 1)] ∧
    ¬ ∃ p ∈ schedule_intervals 0 (get_first_timestamp_for_measurement Option.none 1)
        (get_last_timestamp_for_measurement Option.none 1) 1, p.1 ≤ 0 ∧ (0 : Int) ≤ p.2 := by
  constructor
  · rfl
  · decide

/-- C8 (amended): for every series with an empty store, `first_ts` and
`last_ts` are both treated as `now`; whenever `now - member_since` is more
than one day the scheduler produces exactly the forward walk over
`[member_since, now]`: its intervals cover every day of `[member_since,
now]`, stay inside it, and the final interval ends exactly at `now` (full
backfill, no trailing gap).  When the gap is at most one day only the
keep-alive interval `[now, now]` is emitted (see the counterexample). -/
theorem schedule_intervals_empty_store_backfill (member cur : Int) (h : 1 < cur - member) :
    schedule_intervals member (get_first_timestamp_for_measurement Option.none cur)
        (get_last_timestamp_for_measurement Option.none cur) cur
      = append_between_day_series member cur ∧
    (∀ d : Int, member ≤ d → d ≤ cur →
        ∃ p ∈ schedule_intervals member (get_first_timestamp_for_measurement Option.none cur)
            (get_last_timestamp_for_measurement Option.none cur) cur, p.1 ≤ d ∧ d ≤ p.2) ∧
    (∀ p ∈ schedule_intervals member (get_first_timestamp_for_measurement Option.none cur)
        (get_last_timestamp_for_measurement Option.none cur) cur,
        member ≤ p.1 ∧ p.2 ≤ cur) ∧
    (∃ p, (schedule_intervals member (get_first_timestamp_for_measurement Option.none cur)
        (get_last_timestamp_for_measurement Option.none cur) cur).getLast? = some p ∧
        p.2 = cur) := by
  have hle : member ≤ cur := by omega
  have heq : schedule_intervals member (get_first_timestamp_for_measurement Option.none cur)
      (get_last_timestamp_for_measurement Option.none cur) cur
      = append_between_day_series member cur := by
    simp only [schedule_intervals, get_first_timestamp_for_measurement,
      get_last_timestamp_for_measurement]
    rw [if_pos h, if_neg (by omega : ¬ cur - cur > 1)]
    rw [List.append_nil]
    rw [if_neg (by simpa [List.isEmpty_iff] using append_between_day_series_ne_nil member cur hle)]
  refine ⟨heq, ?_, ?_, ?_⟩
  · intro d h1 h2
    rw [heq]
    exact append_between_day_series_cover member cur d h1 h2
  · intro p hp
    rw [heq] at hp
    have := append_between_day_series_bounds member cur p hp
    exact ⟨this.1, this.2.2⟩
  · rw [heq]
    exact append_between_day_series_last member cur hle

/-- Witness for C8 (amended) at `member_since = 0` (2020-01-01) and
`now = 4` (2020-01-05): the scheduler emits exactly one interval
`[0, 4]`. -/
theorem schedule_intervals_empty_store_backfill_witness :
    schedule_intervals 0 (get_first_timestamp_for_measurement Option.none 4)
        (get_last_timestamp_for_measurement Option.none 4) 4 = [(0, 4)] := by
  have h4 : append_between_day_series 0 4 = [(0, 4)] := by
    rw [append_between_day_series.eq_def]
    norm_num [REQUEST_INTERVAL]
  exact (schedule_intervals_empty_store_backfill 0 4 (by decide)).1.trans h4

theorem dedup_go_filter_mem (t : String) (l : List InfluxPoint) :
    ∀ tracking : List String, t ∈ tracking →
      (dedup_go tracking l).filter (fun x => x.time == t) = [] := by
  induction l with
  | nil => intro tracking h; rfl
  | cons r rest ih =>
    intro tracking h
    simp only [dedup_go]
    by_cases hr : r.time ∈ tracking
    · rw [if_pos hr]
      exact ih tracking h
    · rw [if_neg hr]
      have hne : (r.time == t) = false := by
        refine beq_eq_false_iff_ne.mpr ?_
        intro he
        exact hr (he ▸ h)
      rw [List.filter_cons, hne]
      simp only [Bool.false_eq_true, if_false]
      exact ih (r.time :: tracking) (List.mem_cons_of_mem _ h)

theorem dedup_go_filter_not_mem (t : String) (l : List InfluxPoint) :
    ∀ tracking : List String, t ∉ tracking →
      (dedup_go tracking l).filter (fun x => x.time == t)
        = (l.find? (fun x => x.time == t)).toList := by
  induction l with
  | nil => intro tracking h; rfl
  | cons r rest ih =>
    intro tracking h
    simp only [dedup_go]
    by_cases hr : r.time ∈ tracking
    · have hne : (r.time == t) = false := by
        refine beq_eq_false_iff_ne.mpr ?_
        intro he
        exact h (he ▸ hr)
      rw [if_pos hr, List.find?_cons, hne]
      exact ih tracking h
    · rw [if_neg hr]
      by_cases ht : r.time = t
      · have hbe : (r.time == t) = true := beq_iff_eq.mpr ht
        rw [List.filter_cons, hbe, List.find?_cons, hbe]
        simp only [if_true]
        have htail : (dedup_go (r.time :: tracking) rest).filter (fun x => x.time == t) = [] :=
          dedup_go_filter_mem t rest (r.time :: tracking) (by rw [ht]; exact List.mem_cons_self _ _)
        rw [htail]
        rfl
      · have hne : (r.time == t) = false := beq_eq_false_iff_ne.mpr ht
        rw [List.filter_cons, hne, List.find?_cons, hne]
        simp only [Bool.false_eq_true, if_false]
        refine ih (r.time :: tracking) ?_
        intro hmem
        rcases List.mem_cons.mp hmem with hmem | hmem
        · exact ht hmem.symm
        · exact h hmem

/-- C2 counterexample: two loader points with identical `(measurement,
series, timestamp)` identity and different values; `dedup_meas` emits
exactly one of them, but it is the FIRST one in input order, not the later
one as the claim states. -/
theorem dedup_meas_keeps_first_counterexample :
    heart_rate_point_first.measurement = heart_rate_point_second.measurement ∧
    heart_rate_point_first.time = heart_rate_point_second.time ∧
    heart_rate_point_first.fields.map Prod.fst = heart_rate_point_second.fields.map Prod.fst ∧
    heart_rate_point_first ≠ heart_rate_point_second ∧
    dedup_meas [heart_rate_point_first, heart_rate_point_second] = [heart_rate_point_first] ∧
    dedup_meas [heart_rate_point_first, heart_rate_point_second] ≠ [heart_rate_point_second] := by
  refine ⟨rfl, rfl, rfl, by decide, rfl, by decide⟩

/-- C2 (amended): for every input list containing a point with a given
`time`, `dedup_meas` emits exactly one point with that `time` — in
particular exactly one point for each `(measurement, series, timestamp)`
identity occurring at that `time` — and the emitted point is the FIRST one
in input order (earliest wins; later duplicates are dropped). -/
theorem dedup_meas_first_occurrence_wins (l : List InfluxPoint) (t : String)
    (h : ∃ r ∈ l, r.time = t) :
    ∃ r, l.find? (fun x => x.time == t) = some r ∧ r.time = t ∧
      (dedup_meas l).filter (fun x => x.time == t) = [r] := by
  have hsome : (l.find? (fun x => x.time == t)).isSome := by
    rw [List.find?_isSome]
    obtain ⟨r, hr, ht⟩ := h
    exact ⟨r, hr, by simp [ht]⟩
  obtain ⟨r, hr⟩ := Option.isSome_iff_exists.mp hsome
  have ht : r.time = t := by simpa using List.find?_some hr
  refine ⟨r, hr, ht, ?_⟩
  rw [dedup_meas, dedup_go_filter_not_mem t l [] (by simp), hr]
  rfl

/-- Witness for C2 (amended) on the two concrete duplicate points. -/
theorem dedup_meas_first_occurrence_wins_witness :
    ∃ r, [heart_rate_point_first, heart_rate_point_second].find?
        (fun x => x.time == "2020-01-01T00:00:00") = some r ∧
      r.time = "2020-01-01T00:00:00" ∧
      (dedup_meas [heart_rate_point_first, heart_rate_point_second]).filter
        (fun x => x.time == "2020-01-01T00:00:00") = [r] :=
  dedup_meas_first_occurrence_wins [heart_rate_point_first, heart_rate_point_second]
    "2020-01-01T00:00:00" ⟨heart_rate_point_first, by decide, rfl⟩

theorem chunked_writes_flatten (l : List InfluxPoint) :
    (chunked_writes l).flatten = l := by
  induction l using chunked_writes.induct with
  | case1 l h =>
    rw [chunked_writes, if_pos h]
    simp only [List.isEmpty_iff] at h
    simp [h]
  | case2 l h ih =>
    rw [chunked_writes, if_neg h]
    simp only [List.flatten_cons]
    rw [ih, List.take_append_drop]

theorem chunked_writes_batches (l : List InfluxPoint) :
    ∀ b ∈ chunked_writes l, b.length ≤ CHUNK_SIZE ∧ b ≠ [] := by
  induction l using chunked_writes.induct with
  | case1 l h =>
    rw [chunked_writes, if_pos h]
    intro b hb
    exact absurd hb (List.not_mem_nil b)
  | case2 l h ih =>
    rw [chunked_writes, if_neg h]
    intro b hb
    rcases List.mem_cons.mp hb with hb | hb
    · subst hb
      refine ⟨List.length_take_le _ _, ?_⟩
      simp only [List.isEmpty_iff] at h
      rw [Ne, List.take_eq_nil_iff]
      rintro (h5 | hnil)
      · simp [CHUNK_SIZE] at h5
      · exact h hnil
    · exact ih b hb

/-- C9: when the destination already contains the measurement and the
stored count of non-null values for the first field equals the number of
points about to be written, `write_data_for` performs no write at all;
when the counts differ, the full point list is written in batches each of
at most `CHUNK_SIZE = 5000` points, losing and duplicating nothing. -/
theorem write_data_for_count_skip (meas_exists : Bool) (key_count : Nat)
    (final_list : List InfluxPoint) :
    (meas_exists = true → key_count = final_list.length →
        write_data_tail meas_exists key_count final_list = []) ∧
    (key_count ≠ final_list.length →
        (write_data_tail meas_exists key_count final_list).flatten = final_list ∧
        ∀ b ∈ write_data_tail meas_exists key_count final_list,
          b.length ≤ CHUNK_SIZE ∧ b ≠ []) := by
  constructor
  · intro he hc
    have hcond : (meas_exists && key_count == final_list.length) = true := by
      simp [he, hc]
    rw [write_data_tail, if_pos hcond]
  · intro hc
    have hcond : ¬ (meas_exists && key_count == final_list.length) = true := by
      simp only [Bool.and_eq_true, beq_iff_eq]
      rintro ⟨-, h2⟩
      exact hc h2
    rw [write_data_tail, if_neg hcond]
    exact ⟨chunked_writes_flatten _, chunked_writes_batches _⟩

/-- Witness for C9: with the measurement present and a stored count equal
to the two points about to be written, no batch is emitted. -/
theorem write_data_for_count_skip_witness :
    write_data_tail true 2 [heart_rate_point_first, heart_rate_point_second] = [] :=
  (write_data_for_count_skip true 2 [heart_rate_point_first, heart_rate_point_second]).1
    rfl rfl

/-- C10 counterexample: the environment string `"0"` casts to the falsy
integer `0`; with the deliberately configured falsy default `0`,
`try_getenv` raises `ValueError` instead of returning the default, so the
claim's clause "returns the default otherwise" fails for falsy
defaults. -/
theorem try_getenv_falsy_default_counterexample :
    try_cast_to_int (PVal.str "0") = PVal.num 0 ∧
    pyFalsy (try_cast_to_int (PVal.str "0")) = true ∧
    try_getenv "DB_PORT" (some "0") (PVal.num 0)
      = Except.error "Invalid or missing value provided for: DB_PORT" := by
  refine ⟨by decide, by decide, rfl⟩

/-- C10 (amended): for every environment variable whose string value casts
to a falsy value under `try_cast_to_int` (such as `"0"` or the empty
string), `try_getenv` behaves exactly as if the variable were unset: it
returns the default when the given default is itself truthy, and raises
`ValueError` when no default is given or the given default is falsy — so a
deliberately configured zero or empty value can never be observed by the
caller. -/
theorem try_getenv_falsy_as_unset (var_name s : String) (d : PVal)
    (h : pyFalsy (try_cast_to_int (PVal.str s)) = true) :
    try_getenv var_name (some s) d = try_getenv var_name Option.none d ∧
    (pyFalsy d = false → try_getenv var_name (some s) d = Except.ok d) ∧
    (pyFalsy d = true → try_getenv var_name (some s) d
        = Except.error ("Invalid or missing value provided for: " ++ var_name)) := by
  refine ⟨?_, ?_, ?_⟩
  · simp only [try_getenv, h, if_true]
    rfl
  · intro hd
    simp only [try_getenv, h, hd, if_true, Bool.false_eq_true, if_false]
  · intro hd
    simp only [try_getenv, h, hd, if_true]

/-- Witness for C10 (amended) at `UNITS="0"` with truthy default
`"it_IT"`. -/
theorem try_getenv_falsy_as_unset_witness :
    try_getenv "UNITS" (some "0") (PVal.str "it_IT")
      = try_getenv "UNITS" Option.none (PVal.str "it_IT") ∧
    (pyFalsy (PVal.str "it_IT") = false →
        try_getenv "UNITS" (some "0") (PVal.str "it_IT") = Except.ok (PVal.str "it_IT")) ∧
    (pyFalsy (PVal.str "it_IT") = true →
        try_getenv "UNITS" (some "0") (PVal.str "it_IT")
          = Except.error ("Invalid or missing value provided for: " ++ "UNITS")) :=
  try_getenv_falsy_as_unset "UNITS" "0" (PVal.str "it_IT") (by decide)

/-- C6: `create_api_datapoint_meas_series` is total and its result always
holds exactly one field keyed by the series name; a falsy value is replaced
by `0.0`, a value whose float coercion succeeds is stored as that float,
and a value whose float coercion fails is passed through unchanged. -/
theorem create_api_datapoint_meas_series_spec (m s : String) (v : PVal) (dt : String) :
    ((create_api_datapoint_meas_series m s v dt).fields.map Prod.fst = [s]) ∧
    ((create_api_datapoint_meas_series m s v dt).measurement = m) ∧
    ((create_api_datapoint_meas_series m s v dt).time = dt) ∧
    (pyFalsy v = true →
        (create_api_datapoint_meas_series m s v dt).fields = [(s, PVal.num 0)]) ∧
    (∀ q : Rat, pyFalsy v = false → pyFloatCoerce v = some q →
        (create_api_datapoint_meas_series m s v dt).fields = [(s, PVal.num q)]) ∧
    (pyFalsy v = false → pyFloatCoerce v = Option.none →
        (create_api_datapoint_meas_series m s v dt).fields = [(s, v)]) := by
  refine ⟨?_, rfl, rfl, ?_, ?_, ?_⟩
  · simp [create_api_datapoint_meas_series]
  · intro h
    simp [create_api_datapoint_meas_series, h, pyFloatCoerce]
  · intro q h1 h2
    simp [create_api_datapoint_meas_series, h1, h2]
  · intro h1 h2
    simp [create_api_datapoint_meas_series, h1, h2]

/-- Witness for C6 on a non-numeric, truthy value (`"n/a"`), which is
passed through unchanged. -/
theorem create_api_datapoint_meas_series_spec_witness :
    (create_api_datapoint_meas_series "activities" "steps" (PVal.str "n/a")
        "2020-01-01").fields = [("steps", PVal.str "n/a")] :=
  (create_api_datapoint_meas_series_spec "activities" "steps" (PVal.str "n/a")
      "2020-01-01").2.2.2.2.2 rfl rfl

theorem addSleep_success (n : Nat) (r : FetchLoopResult) (sleeps : List Nat) (p : Nat)
    (h : addSleep n r = FetchLoopResult.success sleeps p) :
    ∃ s', r = FetchLoopResult.success s' p ∧ sleeps = n :: s' := by
  cases r with
  | success s' p' =>
    simp only [addSleep] at h
    injection h with h1 h2
    exact ⟨s', by rw [h2], h1.symm⟩
  | raised s' => simp only [addSleep] at h; exact absurd h (by simp)
  | stillRunning => simp only [addSleep] at h; exact absurd h (by simp)

theorem addSleep_raised (n : Nat) (r : FetchLoopResult) (sleeps : List Nat)
    (h : addSleep n r = FetchLoopResult.raised sleeps) :
    ∃ s', r = FetchLoopResult.raised s' ∧ sleeps = n :: s' := by
  cases r with
  | success s' p' => simp only [addSleep] at h; exact absurd h (by simp)
  | raised s' =>
    simp only [addSleep] at h
    injection h with h1
    exact ⟨s', rfl, h1.symm⟩
  | stillRunning => simp only [addSleep] at h; exact absurd h (by simp)

theorem fetch_loop_success_split (os : List FetchOutcome) :
    ∀ sleeps p, fitbit_fetch_retry_loop os = FetchLoopResult.success sleeps p →
      ∃ pre post, os = pre ++ FetchOutcome.ok p :: post ∧
        (∀ o ∈ pre, (retry_sleep_seconds o).isSome = true) ∧
        sleeps = pre.filterMap retry_sleep_seconds := by
  induction os with
  | nil =>
    intro sleeps p h
    exact absurd h (by simp [fitbit_fetch_retry_loop])
  | cons o rest ih =>
    intro sleeps p h
    cases o with
    | ok q =>
      simp only [fitbit_fetch_retry_loop] at h
      injection h with h1 h2
      subst h2
      exact ⟨[], rest, rfl, by simp, h1.symm⟩
    | timeout =>
      simp only [fitbit_fetch_retry_loop] at h
      obtain ⟨s', hrec, hs⟩ := addSleep_success 15 _ sleeps p h
      obtain ⟨pre, post, h1, h2, h3⟩ := ih s' p hrec
      refine ⟨FetchOutcome.timeout :: pre, post, by rw [List.cons_append, h1], ?_, ?_⟩
      · intro o ho
        rcases List.mem_cons.mp ho with rfl | ho
        · rfl
        · exact h2 o ho
      · rw [hs, h3, List.filterMap_cons]
        rfl
    | httpServerError =>
      simp only [fitbit_fetch_retry_loop] at h
      obtain ⟨s', hrec, hs⟩ := addSleep_success 15 _ sleeps p h
      obtain ⟨pre, post, h1, h2, h3⟩ := ih s' p hrec
      refine ⟨FetchOutcome.httpServerError :: pre, post, by rw [List.cons_append, h1], ?_, ?_⟩
      · intro o ho
        rcases List.mem_cons.mp ho with rfl | ho
        · rfl
        · exact h2 o ho
      · rw [hs, h3, List.filterMap_cons]
        rfl
    | httpTooManyRequests =>
      simp only [fitbit_fetch_retry_loop] at h
      obtain ⟨s', hrec, hs⟩ := addSleep_success 3610 _ sleeps p h
      obtain ⟨pre, post, h1, h2, h3⟩ := ih s' p hrec
      refine ⟨FetchOutcome.httpTooManyRequests :: pre, post,
        by rw [List.cons_append, h1], ?_, ?_⟩
      · intro o ho
        rcases List.mem_cons.mp ho with rfl | ho
        · rfl
        · exact h2 o ho
      · rw [hs, h3, List.filterMap_cons]
        rfl
    | otherException =>
      simp only [fitbit_fetch_retry_loop] at h
      exact absurd h (by simp)

theorem fetch_loop_raised_split (os : List FetchOutcome) :
    ∀ sleeps, fitbit_fetch_retry_loop os = FetchLoopResult.raised sleeps →
      ∃ pre post, os = pre ++ FetchOutcome.otherException :: post ∧
        (∀ o ∈ pre, (retry_sleep_seconds o).isSome = true) ∧
        sleeps = pre.filterMap retry_sleep_seconds := by
  induction os with
  | nil =>
    intro sleeps h
    exact absurd h (by simp [fitbit_fetch_retry_loop])
  | cons o rest ih =>
    intro sleeps h
    cases o with
    | ok q =>
      simp only [fitbit_fetch_retry_loop] at h
      exact absurd h (by simp)
    | timeout =>
      simp only [fitbit_fetch_retry_loop] at h
      obtain ⟨s', hrec, hs⟩ := addSleep_raised 15 _ sleeps h
      obtain ⟨pre, post, h1, h2, h3⟩ := ih s' hrec
      refine ⟨FetchOutcome.timeout :: pre, post, by rw [List.cons_append, h1], ?_, ?_⟩
      · intro o ho
        rcases List.mem_cons.mp ho with rfl | ho
        · rfl
        · exact h2 o ho
      · rw [hs, h3, List.filterMap_cons]
        rfl
    | httpServerError =>
      simp only [fitbit_fetch_retry_loop] at h
      obtain ⟨s', hrec, hs⟩ := addSleep_raised 15 _ sleeps h
      obtain ⟨pre, post, h1, h2, h3⟩ := ih s' hrec
      refine ⟨FetchOutcome.httpServerError :: pre, post, by rw [List.cons_append, h1], ?_, ?_⟩
      · intro o ho
        rcases List.mem_cons.mp ho with rfl | ho
        · rfl
        · exact h2 o ho
      · rw [hs, h3, List.filterMap_cons]
        rfl
    | httpTooManyRequests =>
      simp only [fitbit_fetch_retry_loop] at h
      obtain ⟨s', hrec, hs⟩ := addSleep_raised 3610 _ sleeps h
      obtain ⟨pre, post, h1, h2, h3⟩ := ih s' hrec
      refine ⟨FetchOutcome.httpTooManyRequests :: pre, post,
        by rw [List.cons_append, h1], ?_, ?_⟩
      · intro o ho
        rcases List.mem_cons.mp ho with rfl | ho
        · rfl
        · exact h2 o ho
      · rw [hs, h3, List.filterMap_cons]
        rfl
    | otherException =>
      simp only [fitbit_fetch_retry_loop] at h
      injection h with h1
      exact ⟨[], rest, rfl, by simp, h1.symm⟩

/-- C4: on every scripted sequence of attempt outcomes, the retry loop
returns a payload exactly when an `ok` outcome follows only transient
outcomes, having slept once per preceding transient attempt (15 s for
`Timeout` and `HTTPServerError`, 3610 s ≥ 3600 s for
`HTTPTooManyRequests`); it re-raises exactly when any other exception
follows only transient outcomes, with no further sleep; so the caller only
ever observes a final successful payload or that abort. -/
theorem fitbit_fetch_retry_policy (os : List FetchOutcome) :
    (∀ sleeps p, fitbit_fetch_retry_loop os = FetchLoopResult.success sleeps p →
        ∃ pre post, os = pre ++ FetchOutcome.ok p :: post ∧
          (∀ o ∈ pre, (retry_sleep_seconds o).isSome = true) ∧
          sleeps = pre.filterMap retry_sleep_seconds) ∧
    (∀ sleeps, fitbit_fetch_retry_loop os = FetchLoopResult.raised sleeps →
        ∃ pre post, os = pre ++ FetchOutcome.otherException :: post ∧
          (∀ o ∈ pre, (retry_sleep_seconds o).isSome = true) ∧
          sleeps = pre.filterMap retry_sleep_seconds) ∧
    retry_sleep_seconds FetchOutcome.timeout = some 15 ∧
    retry_sleep_seconds FetchOutcome.httpServerError = some 15 ∧
    (∃ n, retry_sleep_seconds FetchOutcome.httpTooManyRequests = some n ∧ 3600 ≤ n) :=
  ⟨fetch_loop_success_split os, fetch_loop_raised_split os,
   rfl, rfl, ⟨3610, rfl, by norm_num⟩⟩

/-- Witness for C4 on the spec's simulated sequence `Timeout, ServerError,
RateLimitExceeded, success`: the loop succeeds with payload 7 after sleeps
`[15, 15, 3610]`, and the split locates the `ok` outcome. -/
theorem fitbit_fetch_retry_policy_witness :
    ∃ pre post,
      [FetchOutcome.timeout, FetchOutcome.httpServerError,
        FetchOutcome.httpTooManyRequests, FetchOutcome.ok 7]
        = pre ++ FetchOutcome.ok 7 :: post ∧
      (∀ o ∈ pre, (retry_sleep_seconds o).isSome = true) ∧
      [15, 15, 3610] = pre.filterMap retry_sleep_seconds :=
  (fitbit_fetch_retry_policy [FetchOutcome.timeout, FetchOutcome.httpServerError,
    FetchOutcome.httpTooManyRequests, FetchOutcome.ok 7]).1 [15, 15, 3610] 7 rfl

/-- C5: for every sleep record carrying a start time and a millisecond
duration but no `levels` key, the transform does not raise and returns
exactly the eight base points under measurement `sleep`, in the source's
series order, with the duration value equal to the millisecond value
divided by 1000, and with no `sleep_levels` / `sleep_data` /
`sleep_shortData` point. -/
theorem transform_sleep_base_points (dp : SleepRecord) (dt : String) (ms : Rat)
    (h1 : dp.startTime = some dt) (h2 : dp.duration = some ms)
    (h3 : dp.levels = Option.none) :
    ∃ l, transform_sleep_datapoint dp = some l ∧
      l.length = 8 ∧
      l.map DP.meas = List.replicate 8 "sleep" ∧
      l.map DP.series = ["duration", "efficiency", "isMainSleep", "timeInBed",
        "minutesAfterWakeup", "minutesAsleep", "minutesAwake", "minutesToFallAsleep"] ∧
      l.head?.map DP.value = some (PVal.num (ms / 1000)) ∧
      (∀ p ∈ l, p.dateTime = dt) ∧
      (∀ p ∈ l, p.meas ≠ "sleep_levels" ∧ p.meas ≠ "sleep_data" ∧
        p.meas ≠ "sleep_shortData") := by
  have ht : transform_sleep_datapoint dp = some [
      { dateTime := dt, meas := "sleep", series := "duration", value := PVal.num (ms / 1000) },
      { dateTime := dt, meas := "sleep", series := "efficiency",
        value := optNum dp.efficiency },
      { dateTime := dt, meas := "sleep", series := "isMainSleep",
        value := PVal.bool (dp.isMainSleep.getD false) },
      { dateTime := dt, meas := "sleep", series := "timeInBed",
        value := optNum dp.timeInBed },
      { dateTime := dt, meas := "sleep", series := "minutesAfterWakeup",
        value := optNum dp.minutesAfterWakeup },
      { dateTime := dt, meas := "sleep", series := "minutesAsleep",
        value := optNum dp.minutesAsleep },
      { dateTime := dt, meas := "sleep", series := "minutesAwake",
        value := optNum dp.minutesAwake },
      { dateTime := dt, meas := "sleep", series := "minutesToFallAsleep",
        value := optNum dp.minutesToFallAsleep } ] := by
    rw [transform_sleep_datapoint, h1, h2, h3]
    rfl
  refine ⟨_, ht, rfl, rfl, rfl, rfl, ?_, ?_⟩
  · intro p hp
    simp only [List.mem_cons, List.not_mem_nil, or_false] at hp
    rcases hp with rfl | rfl | rfl | rfl | rfl | rfl | rfl | rfl <;> rfl
  · intro p hp
    simp only [List.mem_cons, List.not_mem_nil, or_false] at hp
    rcases hp with rfl | rfl | rfl | rfl | rfl | rfl | rfl | rfl <;>
      exact ⟨(by decide : ("sleep" : String) ≠ "sleep_levels"),
        (by decide : ("sleep" : String) ≠ "sleep_data"),
        (by decide : ("sleep" : String) ≠ "sleep_shortData")⟩

/-- Witness for C5 on the spec's scenario record (`duration = 28800000`,
`efficiency = 90`, no `levels`): 28800000 / 1000 = 28800 seconds. -/
theorem transform_sleep_base_points_witness :
    (∃ l, transform_sleep_datapoint c5_sleep_record = some l ∧
      l.length = 8 ∧
      l.map DP.meas = List.replicate 8 "sleep" ∧
      l.map DP.series = ["duration", "efficiency", "isMainSleep", "timeInBed",
        "minutesAfterWakeup", "minutesAsleep", "minutesAwake", "minutesToFallAsleep"] ∧
      l.head?.map DP.value = some (PVal.num ((28800000 : Rat) / 1000)) ∧
      (∀ p ∈ l, p.dateTime = "2020-01-01T23:00:00.000") ∧
      (∀ p ∈ l, p.meas ≠ "sleep_levels" ∧ p.meas ≠ "sleep_data" ∧
        p.meas ≠ "sleep_shortData")) ∧
    (28800000 : Rat) / 1000 = 28800 :=
  ⟨transform_sleep_base_points c5_sleep_record "2020-01-01T23:00:00.000" 28800000
    rfl rfl rfl, by norm_num⟩

/-- C3 (code bug): on a realistic sleep record whose `levels` structure is
present and contains the `summary` mapping and the `data` / `shortData`
segment lists, the transform emits ONLY the eight base points and not a
single `sleep_levels` / `sleep_data` / `sleep_shortData` point, because the
guards test the top-level keys `datapoint.get('summary')` /
`.get('data')` / `.get('shortData')` instead of the keys of
`datapoint['levels']` that the loop bodies then index. -/
theorem transform_sleep_levels_guard_dead :
    levelsTruthy c3_sleep_record.levels = true ∧
    (∃ lv, c3_sleep_record.levels = some lv ∧
        lv.summary.isSome = true ∧ lv.data.isSome = true ∧ lv.shortData.isSome = true) ∧
    (transform_sleep_datapoint c3_sleep_record).map List.length = some 8 ∧
    (transform_sleep_datapoint c3_sleep_record).map
        (fun l => l.countP (fun p => p.meas == "sleep_levels" || p.meas == "sleep_data"
            || p.meas == "sleep_shortData")) = some 0 := by
  refine ⟨rfl, ⟨_, rfl, rfl, rfl, rfl⟩, rfl, rfl⟩

theorem heart_zone_points_length (dt : String) (zones : List HeartZone) :
    (zones.flatMap (heart_zone_points dt)).length = 4 * zones.length := by
  induction zones with
  | nil => rfl
  | cons z zs ih =>
    simp only [List.flatMap_cons, List.length_append, ih, heart_zone_points,
      List.length_map, List.length_cons]
    simp only [List.length_nil]
    omega

theorem heart_zone_points_series (dt : String) (zones : List HeartZone) :
    (zones.flatMap (heart_zone_points dt)).map DP.series
      = zones.flatMap (fun z => ["caloriesOut", "max", "min", "minutes"].map (fun one_val =>
          "hrz_" ++ py_lower (py_replace_space z.name) ++ "_" ++ one_val)) := by
  induction zones with
  | nil => rfl
  | cons z zs ih =>
    simp only [List.flatMap_cons, List.map_append, ih, heart_zone_points]
    simp only [List.map_cons, List.map_nil]

/-- C7: for every heart-rate raw item with a date and a value dict, the
transform emits one `restingHeartRate` point first; when zone breakdown
data is present (a non-empty `heartRateZones` list) it additionally emits
exactly four points per zone whose series names are `hrz_` followed by the
zone name with spaces replaced by underscores and lower-cased, followed by
`_` and the field name (`caloriesOut`, `max`, `min`, `minutes`); when
zones are absent (or empty, which Python treats as absent) only the single
resting-heart-rate point is returned. -/
theorem transform_activities_heart_spec (dp : HeartDatapoint) (dt : String) (hv : HeartValue)
    (h1 : dp.dateTime = some dt) (h2 : dp.value = some hv) :
    (hv.heartRateZones = Option.none ∨ hv.heartRateZones = some [] →
        transform_activities_heart_datapoint dp
          = some [{ dateTime := dt, meas := "activities", series := "restingHeartRate",
                    value := PVal.num (hv.restingHeartRate.getD 0) }]) ∧
    (∀ zones, hv.heartRateZones = some zones → zones ≠ [] →
        ∃ l, transform_activities_heart_datapoint dp = some l ∧
          l.length = 1 + 4 * zones.length ∧
          l.head? = some ⟨dt, "activities", "restingHeartRate",
              PVal.num (hv.restingHeartRate.getD 0)⟩ ∧
          l.map DP.series = "restingHeartRate" :: zones.flatMap (fun z =>
            ["caloriesOut", "max", "min", "minutes"].map (fun one_val =>
              "hrz_" ++ py_lower (py_replace_space z.name) ++ "_" ++ one_val)) ∧
          l.tail = zones.flatMap (heart_zone_points dt)) := by
  constructor
  · intro hz
    rcases hz with hz | hz <;>
      simp [transform_activities_heart_datapoint, h1, h2, hz, optListTruthy]
  · intro zones hz hne
    have hemp : zones.isEmpty = false := by
      cases zones with
      | nil => exact absurd rfl hne
      | cons a t => rfl
    have hl : transform_activities_heart_datapoint dp
        = some ({ dateTime := dt, meas := "activities", series := "restingHeartRate",
                  value := PVal.num (hv.restingHeartRate.getD 0) }
            :: zones.flatMap (heart_zone_points dt)) := by
      simp [transform_activities_heart_datapoint, h1, h2, hz, optListTruthy, hemp]
    refine ⟨_, hl, ?_, rfl, ?_, rfl⟩
    · simp only [List.length_cons, heart_zone_points_length]
      omega
    · simp only [List.map_cons, heart_zone_points_series]

/-- Witness for C7 on a concrete item with two zones ("Out of Range",
"Fat Burn"): 1 + 4 * 2 points with the advertised series names. -/
theorem transform_activities_heart_spec_witness :
    ∃ l, transform_activities_heart_datapoint c7_heart_datapoint = some l ∧
      l.length = 1 + 4 * [c7_zone1, c7_zone2].length ∧
      l.head? = some ⟨"2020-01-01", "activities", "restingHeartRate",
          PVal.num ((some (60 : Rat)).getD 0)⟩ ∧
      l.map DP.series = "restingHeartRate" :: [c7_zone1, c7_zone2].flatMap (fun z =>
        ["caloriesOut", "max", "min", "minutes"].map (fun one_val =>
          "hrz_" ++ py_lower (py_replace_space z.name) ++ "_" ++ one_val)) ∧
      l.tail = [c7_zone1, c7_zone2].flatMap (heart_zone_points "2020-01-01") :=
  (transform_activities_heart_spec c7_heart_datapoint "2020-01-01"
      ⟨some 60, some [c7_zone1, c7_zone2]⟩ rfl rfl).2
    [c7_zone1, c7_zone2] rfl (List.cons_ne_nil _ _)
